import Mathlib

/-!
Shallow embedding of the task/action core of the doit build tool
(file src/lib/doit/task.py) together with theorems about the claims of
its specification.

The embedding models Python values with the inductive `PyObj`, Python
exceptions with `PyBaseExc`, and translates each function of the source
into a Lean function.  Code whose behaviour depends on the environment
(the exit code of a spawned subprocess, the result of invoking a stored
callable, the text the callable writes to the standard streams) takes
that environment data as explicit parameters.  Mutation of the process
wide standard streams and the logging collaborator is modelled by
explicit state passing over `SysState`.
-/

/-- Python exceptions that the source can raise: the three exception
classes declared at the top of task.py, the two termination signals it
deliberately re-raises, and the built in exceptions that its code can
trigger (KeyError from `d[k]` on a missing key, TypeError from calling
a constructor with a bad arity, AttributeError from calling a string
method on a non string).  `taskError` carries the message and the
optional `originalException` attribute set at line 174 of the source. -/
inductive PyBaseExc where
  | invalidTask (msg : String)
  | taskFailed (msg : String)
  | taskError (msg : String) (originalException : Option (List String))
  | systemExit
  | keyboardInterrupt
  | keyError (key : String)
  | typeError (msg : String)
  | attributeError (msg : String)
deriving Repr

mutual
/-- Model of the Python values the source manipulates: the literals that
can appear in a task dictionary (None, bools, ints, strings, tuples,
lists, string keyed dicts), bare callables (identified by a display
name), and already constructed BaseAction instances. -/
inductive PyObj where
  | none
  | bool (b : Bool)
  | int (n : Int)
  | str (s : String)
  | tuple (elems : List PyObj)
  | list (elems : List PyObj)
  | dict (entries : List (String × PyObj))
  | callable (name : String)
  | actionObj (a : ActionObj)

/-- The concrete action objects of the source: `CmdAction` holding a
shell command string, `PythonAction` holding a callable plus stored args
and kwargs (lines 131-140), and a custom BaseAction subclass supplied by
a caller (the pass through case of create_action). -/
inductive ActionObj where
  | cmd (action : String)
  | python (py_callable : PyObj) (args : PyObj) (kwargs : PyObj)
  | custom (descr : String)
end

/-- Python type name of a value, as interpolated by `%s % type(x)` and
`action.__class__` in the error messages of the source. -/
def typeName : PyObj → String
  | .none => "<type \x27NoneType\x27>"
  | .bool _ => "<type \x27bool\x27>"
  | .int _ => "<type \x27int\x27>"
  | .str _ => "<type \x27str\x27>"
  | .tuple _ => "<type \x27tuple\x27>"
  | .list _ => "<type \x27list\x27>"
  | .dict _ => "<type \x27dict\x27>"
  | .callable _ => "<type \x27function\x27>"
  | .actionObj _ => "<class \x27doit.task.BaseAction\x27>"

mutual
/-- Python repr of a value.  Runtime memory addresses that CPython would
print for function objects are elided from the model. -/
def pyRepr : PyObj → String
  | .none => "None"
  | .bool true => "True"
  | .bool false => "False"
  | .int n => toString n
  | .str s => "\x27" ++ s ++ "\x27"
  | .tuple [] => "()"
  | .tuple [a] => "(" ++ pyRepr a ++ ",)"
  | .tuple l => "(" ++ String.intercalate ", " (pyReprList l) ++ ")"
  | .list l => "[" ++ String.intercalate ", " (pyReprList l) ++ "]"
  | .dict l => "\x7b" ++ String.intercalate ", " (pyReprPairs l) ++ "\x7d"
  | .callable n => "<function " ++ n ++ ">"
  | .actionObj a => actionRepr a

def pyReprList : List PyObj → List String
  | [] => []
  | a :: l => pyRepr a :: pyReprList l

def pyReprPairs : List (String × PyObj) → List String
  | [] => []
  | (k, v) :: l => ("\x27" ++ k ++ "\x27: " ++ pyRepr v) :: pyReprPairs l

/-- repr of an action object, per the `__repr__` methods of the source. -/
def actionRepr : ActionObj → String
  | .cmd s => "<CmdAction: " ++ s ++ ">"
  | .python c _ _ => "<PythonAction: " ++ pyRepr c ++ ">"
  | .custom n => "<" ++ n ++ ">"
end

/-- Python str of a value: identity on strings, repr otherwise. -/
def pyStr : PyObj → String
  | .str s => s
  | v => pyRepr v

/-- Python s.endswith(suffix), computed on the character list so that it
reduces by evaluation. -/
def pyEndsWith (s suffix : String) : Bool :=
  suffix.data.isSuffixOf s.data

/-- Python s.startswith(prefix), computed on the character list. -/
def pyStartsWith (s pre : String) : Bool :=
  pre.data.isPrefixOf s.data

/-- Python s[1:], dropping the first character. -/
def pyDropFirst (s : String) : String :=
  String.mk (s.data.drop 1)

/-- Whether a string is empty, computed on the character list. -/
def pyIsEmpty (s : String) : Bool :=
  s.data.isEmpty

/-- Python truthiness of a value, as used by `if not result:` at
line 190 of the source. -/
def truthy : PyObj → Bool
  | .none => false
  | .bool b => b
  | .int n => n != 0
  | .str s => !(pyIsEmpty s)
  | .tuple l => !l.isEmpty
  | .list l => !l.isEmpty
  | .dict l => !l.isEmpty
  | .callable _ => true
  | .actionObj _ => true

/-- Python `callable(x)` for the modelled values: only bare callables
answer true (BaseAction instances define no `__call__`). -/
def isCallable : PyObj → Bool
  | .callable _ => true
  | _ => false

/-- CmdAction.execute, lines 46-90 of the source.  The subprocess spawn
and wait are summarised by their observable data: the exit code
`returncode` of the terminated shell subprocess and the text
`outContent` / `errContent` it produced on each stream.  When a stream
is not captured, `communicate()` yields None for it and nothing is
logged; when captured, non empty content is forwarded to the logging
collaborator tagged with the channel name.  The returned pair is the
execution outcome and the list of log calls made. -/
def CmdAction.executeModel (action : String) (returncode : Int)
    (outContent errContent : String) (capture_stdout capture_stderr : Bool) :
    Except PyBaseExc Unit × List (String × String) :=
  let out : Option String := if capture_stdout then some outContent else Option.none
  let err : Option String := if capture_stderr then some errContent else Option.none
  let logged : List (String × String) :=
    (match out with
     | some o => if pyIsEmpty o then [] else [("stdout", o)]
     | Option.none => []) ++
    (match err with
     | some e => if pyIsEmpty e then [] else [("stderr", e)]
     | Option.none => [])
  let outcome : Except PyBaseExc Unit :=
    if returncode > 125 then
      .error (.taskError ("Command error: \x27" ++ action ++ "\x27 returned "
        ++ toString returncode) Option.none)
    else if returncode != 0 then
      .error (.taskFailed ("Command failed: \x27" ++ action ++ "\x27 returned "
        ++ toString returncode))
    else .ok ()
  (outcome, logged)

/-- A value bound to sys.stdout or sys.stderr: either the real stream
inherited from the environment or an in memory StringIO buffer created
at lines 156 and 160 of the source. -/
inductive StreamObj where
  | real
  | strBuf (contents : String)
deriving Repr

/-- Process wide state touched by PythonAction.execute: the two standard
stream bindings, the text that reached the real console, and the calls
made so far to the logging collaborator. -/
structure SysState where
  stdout : StreamObj
  stderr : StreamObj
  console : String
  log : List (String × String)
deriving Repr

/-- Writing text through the current sys.stdout binding. -/
def SysState.writeStdout (st : SysState) (s : String) : SysState :=
  match st.stdout with
  | .real => { st with console := st.console ++ s }
  | .strBuf c => { st with stdout := .strBuf (c ++ s) }

/-- Writing text through the current sys.stderr binding. -/
def SysState.writeStderr (st : SysState) (s : String) : SysState :=
  match st.stderr with
  | .real => { st with console := st.console ++ s }
  | .strBuf c => { st with stderr := .strBuf (c ++ s) }

/-- StringIO.getvalue, defined only on buffers; never reached on the
real stream in the source because it is guarded by the capture flags. -/
def StreamObj.getvalue : StreamObj → String
  | .strBuf c => c
  | .real => ""

/-- What invoking the stored callable can do: return a value, or raise.
A raised termination signal is kept distinct from a plain exception,
which carries its class name, message and the traceback frames that the
runtime would attach. -/
inductive PyRaised where
  | systemExit
  | keyboardInterrupt
  | exn (cls : String) (msg : String) (tb : List String)
deriving Repr

/-- Behaviour of one invocation of the stored callable: what it writes
to the current standard streams and how it finishes. -/
structure CallBehavior where
  outcome : Except PyRaised PyObj
  outWrites : String
  errWrites : String

/-- Model of traceback.format_exception as called at lines 174-175 of
the source: the header line, the traceback frames, and the final line
naming the exception class and message. -/
def format_exception (cls msg : String) (tb : List String) : List String :=
  "Traceback (most recent call last):" :: tb ++ [cls ++ ": " ++ msg]

/-- PythonAction.execute, lines 142-192 of the source.  The behaviour
of the stored callable on this invocation is supplied as `beh`; the
stored callable itself is `py_callable` (used in the failure message at
line 191).  Steps, in source order: redirect each captured stream to a
fresh StringIO buffer saving the previous binding (lines 153-160);
invoke the callable, whose writes go through the current bindings;
re-raise termination signals unchanged and wrap any other exception in
TaskError carrying the original message and the formatted traceback
(lines 163-176); in the finally block flush each captured buffer to the
logging collaborator and restore the saved binding (lines 177-187);
finally, when the callable returned, raise TaskFailed on a falsy result
(lines 189-192). -/
def PythonAction.execute (py_callable : PyObj) (beh : CallBehavior)
    (capture_stdout capture_stderr : Bool) (st : SysState) :
    Except PyBaseExc Unit × SysState :=
  let old_stdout := st.stdout
  let st1 := if capture_stdout then { st with stdout := .strBuf "" } else st
  let old_stderr := st1.stderr
  let st2 := if capture_stderr then { st1 with stderr := .strBuf "" } else st1
  let st3 := (st2.writeStdout beh.outWrites).writeStderr beh.errWrites
  let tryResult : Except PyBaseExc PyObj :=
    match beh.outcome with
    | .ok v => .ok v
    | .error .systemExit => .error .systemExit
    | .error .keyboardInterrupt => .error .keyboardInterrupt
    | .error (.exn cls msg tb) =>
        .error (.taskError msg (some (format_exception cls msg tb)))
  let st4 := if capture_stdout then
      { st3 with log := st3.log ++ [("stdout", st3.stdout.getvalue)],
                 stdout := old_stdout }
    else st3
  let st5 := if capture_stderr then
      { st4 with log := st4.log ++ [("stderr", st4.stderr.getvalue)],
                 stderr := old_stderr }
    else st4
  match tryResult with
  | .error e => (.error e, st5)
  | .ok v =>
      if truthy v then (.ok (), st5)
      else (.error (.taskFailed ("Python Task failed: \x27" ++ pyStr py_callable
              ++ "\x27 returned " ++ pyStr v)), st5)

/-- Whether a value has exactly type tuple or list, per the check at
line 125 of the source. -/
def isListOrTuple : PyObj → Bool
  | .list _ => true
  | .tuple _ => true
  | _ => false

/-- Whether a value has exactly type dict, per line 128 of the source. -/
def isDict : PyObj → Bool
  | .dict _ => true
  | _ => false

/-- Whether a value is None. -/
def isNone : PyObj → Bool
  | .none => true
  | _ => false

/-- PythonAction.__init__, lines 110-140 of the source: validate that
the callable is callable, that args (when given) is a tuple or a list,
and that kwargs (when given) is a dict; store empty defaults for the
absent optional arguments. -/
def PythonAction.init_ (py_callable args kwargs : PyObj) :
    Except PyBaseExc ActionObj :=
  if !isCallable py_callable then
    .error (.invalidTask "PythonAction must be a \x27callable\x27.")
  else if !isNone args && !isListOrTuple args then
    .error (.invalidTask ("args must be a \x27tuple\x27 or a \x27list\x27. "
      ++ pyStr args))
  else if !isNone kwargs && !isDict kwargs then
    .error (.invalidTask "kwargs must be a \x27dict\x27")
  else
    .ok (.python py_callable
      (if isNone args then .list [] else args)
      (if isNone kwargs then .dict [] else kwargs))

/-- create_action, lines 202-225 of the source.  Checks, in source
order: a BaseAction instance is returned unchanged; an exact str builds
a CmdAction; an exact tuple is unpacked positionally as PythonAction
constructor arguments (zero or more than three elements make the python
runtime itself reject the call with TypeError before the constructor
body runs); a callable builds a PythonAction with no extra arguments;
anything else raises InvalidTask naming the concrete type. -/
def create_action (action : PyObj) : Except PyBaseExc ActionObj :=
  match action with
  | .actionObj x => .ok x
  | .str s => .ok (.cmd s)
  | .tuple [] => .error (.typeError "__init__() takes at least 2 arguments (1 given)")
  | .tuple [c] => PythonAction.init_ c .none .none
  | .tuple [c, ar] => PythonAction.init_ c ar .none
  | .tuple [c, ar, kw] => PythonAction.init_ c ar kw
  | .tuple (_ :: _ :: _ :: _ :: _) =>
      .error (.typeError "__init__() takes at most 4 arguments")
  | .callable n => PythonAction.init_ (.callable n) .none .none
  | other => .error (.invalidTask ("Invalid task action type. " ++ typeName other))

/-- Whether a dependency entry is the literal True. -/
def isTrueLit : PyObj → Bool
  | .bool true => true
  | _ => false

/-- Whether a dependency entry is the literal False. -/
def isFalseLit : PyObj → Bool
  | .bool false => true
  | _ => false

/-- Whether a dependency entry is a bool or a string, the only entry
types the classification loop of the source handles without raising
AttributeError. -/
def isBoolOrStr : PyObj → Bool
  | .bool _ => true
  | .str _ => true
  | _ => false

/-- Whether a dependency entry is handled without raising: the literal
True or any string. -/
def entryOk : PyObj → Bool
  | .bool true => true
  | .str _ => true
  | _ => false

/-- Whether an entry is a plain file dependency string: a string that
neither ends with the path separator nor starts with the task marker. -/
def isFileStr : PyObj → Bool
  | .str s => !pyEndsWith s "/" && !pyStartsWith s ":"
  | _ => false

/-- The folder dependency an entry contributes, when any. -/
def folderOf : PyObj → Option String
  | .str s => if pyEndsWith s "/" then some s else Option.none
  | _ => Option.none

/-- The task dependency an entry contributes, when any: task marker
stripped, checked only after the folder test per source order. -/
def taskOf : PyObj → Option String
  | .str s => if !pyEndsWith s "/" && pyStartsWith s ":" then some (pyDropFirst s)
              else Option.none
  | _ => Option.none

/-- The file dependency an entry contributes, when any. -/
def fileOf : PyObj → Option String
  | .str s => if !pyEndsWith s "/" && !pyStartsWith s ":" then some s
              else Option.none
  | _ => Option.none

/-- The dependency classification loop of Task.__init__, lines 274-294
of the source, as a recursion over the remaining entries carrying the
accumulated folder_dep, task_dep, file_dep and run_once.  A bool entry
must be True (False raises InvalidTask) and sets run_once; a string is
tested in source order: suffix path separator makes a folder dependency,
then prefix colon makes a task dependency with the marker stripped, any
other string is a file dependency.  A non bool non string entry makes
`dep.endswith` raise AttributeError. -/
def classifyGo (name : PyObj) (folder task file : List String) (ronce : Bool) :
    List PyObj → Except PyBaseExc (List String × List String × List String × Bool)
  | [] => .ok (folder, task, file, ronce)
  | d :: rest =>
    match d with
    | .bool b =>
        if b then classifyGo name folder task file true rest
        else .error (.invalidTask (pyStr name
          ++ ". bool paramater in \x27dependencies\x27 must be True got:\x27"
          ++ pyStr (.bool b) ++ "\x27"))
    | .str s =>
        if pyEndsWith s "/" then classifyGo name (folder ++ [s]) task file ronce rest
        else if pyStartsWith s ":" then
          classifyGo name folder (task ++ [pyDropFirst s]) file ronce rest
        else classifyGo name folder task (file ++ [s]) ronce rest
    | other => .error (.attributeError (typeName other
        ++ " object has no attribute \x27endswith\x27"))

/-- The sequence type check applied to the dependencies and targets
parameters at lines 246-257 of the source: exact list or tuple, anything
else raises InvalidTask naming the parameter, its str and its type. -/
def checkSeq (name : PyObj) (param : String) (v : PyObj) :
    Except PyBaseExc (List PyObj) :=
  match v with
  | .list l => .ok l
  | .tuple l => .ok l
  | d => .error (.invalidTask (pyStr name ++ ". paramater \x27" ++ param
      ++ "\x27 must be a list or tuple got:\x27" ++ pyStr d ++ "\x27" ++ typeName d))

/-- The list comprehension `[create_action(a) for a in actions]` at
line 264 of the source: the first raising element aborts the rest. -/
def mapCreate : List PyObj → Except PyBaseExc (List ActionObj)
  | [] => .ok []
  | a :: l =>
    match create_action a with
    | .error e => .error e
    | .ok x =>
      match mapCreate l with
      | .error e => .error e
      | .ok xs => .ok (x :: xs)

/-- Normalisation of the actions parameter at lines 261-266 of the
source: None gives no actions, an exact list maps create_action over the
elements, anything else is a single action spec. -/
def buildActions : PyObj → Except PyBaseExc (List ActionObj)
  | .none => .ok []
  | .list l => mapCreate l
  | a =>
    match create_action a with
    | .error e => .error e
    | .ok x => .ok [x]

/-- A fully constructed Task object: the fields set by Task.__init__ of
the source. -/
structure TaskObj where
  name : PyObj
  actions : List ActionObj
  dependencies : PyObj
  targets : List PyObj
  setup : PyObj
  run_once : Bool
  is_subtask : Bool
  folder_dep : List String
  task_dep : List String
  file_dep : List String

/-- Task.__init__, lines 243-300 of the source, in source order: check
that dependencies and targets are sequences, normalise the actions,
classify the dependencies, and reject run_once combined with a non
empty file_dep. -/
def Task.init_ (name actions dependencies targets setup : PyObj)
    (is_subtask : Bool) : Except PyBaseExc TaskObj :=
  match checkSeq name "dependencies" dependencies with
  | .error e => .error e
  | .ok deps =>
  match checkSeq name "targets" targets with
  | .error e => .error e
  | .ok tgts =>
  match buildActions actions with
  | .error e => .error e
  | .ok acts =>
  match classifyGo name [] [] [] false deps with
  | .error e => .error e
  | .ok (folder, task, file, ronce) =>
  if ronce && !file.isEmpty then
    .error (.invalidTask (pyStr name
      ++ ". task cant have file and dependencies and True at the same time."
      ++ " (just remove True)"))
  else
    .ok { name := name, actions := acts, dependencies := dependencies,
          targets := tgts, setup := setup, run_once := ronce,
          is_subtask := is_subtask, folder_dep := folder,
          task_dep := task, file_dep := file }

/-- The loop of Task.execute, lines 303-310 of the source: run each
action in declared order passing both capture flags unchanged; the
first action that raises aborts the remaining ones and its exception
propagates unchanged.  Each action is represented by its execute
behaviour, a state transformer producing an outcome. -/
def runActions {σ : Type} :
    List (Bool → Bool → σ → Except PyBaseExc Unit × σ) → Bool → Bool → σ →
    Except PyBaseExc Unit × σ
  | [], _, _, st => (.ok (), st)
  | a :: rest, cs, ce, st =>
    match a cs ce st with
    | (.ok _, st2) => runActions rest cs ce st2
    | (.error e, st2) => (.error e, st2)

/-- Task.execute of a constructed task: the loop over self.actions,
with the runtime behaviour of each action object supplied by `env`. -/
def TaskObj.execute {σ : Type} (t : TaskObj)
    (env : ActionObj → Bool → Bool → σ → Except PyBaseExc Unit × σ)
    (cs ce : Bool) (st : σ) : Except PyBaseExc Unit × σ :=
  runActions (t.actions.map env) cs ce st

/-- A trace of executed actions: index and the two capture flags each
one received. -/
abbrev Trace := List (Nat × Bool × Bool)

/-- Instrumented action behaviours: the action at position n finishes
with the given outcome and records its index and flags in the trace. -/
def instrActs : List (Except PyBaseExc Unit) → Nat →
    List (Bool → Bool → Trace → Except PyBaseExc Unit × Trace)
  | [], _ => []
  | r :: rest, n =>
    (fun cs ce tr => (r, tr ++ [(n, cs, ce)])) :: instrActs rest (n + 1)

/-- The outcome of running a list of action outcomes in order: the
first exception, or success when none raises. -/
def firstExc : List (Except PyBaseExc Unit) → Except PyBaseExc Unit
  | [] => .ok ()
  | .ok _ :: rest => firstExc rest
  | .error e :: _ => .error e

/-- How many actions actually execute: every action up to and including
the first raising one. -/
def execCount : List (Except PyBaseExc Unit) → Nat
  | [] => 0
  | .ok _ :: rest => execCount rest + 1
  | .error _ :: _ => 1

/-- The trace left by k actions starting at index n, all receiving the
same two capture flags. -/
def traceOf (n k : Nat) (cs ce : Bool) : Trace :=
  match k with
  | 0 => []
  | Nat.succ k2 => (n, cs, ce) :: traceOf (n + 1) k2 cs ce

/-- A task with three command actions, used to witness the abort
behaviour of Task.execute. -/
def t3 : TaskObj :=
  { name := .str "t3", actions := [.cmd "a1", .cmd "a2", .cmd "a3"],
    dependencies := .list [], targets := [], setup := .none,
    run_once := false, is_subtask := false,
    folder_dep := [], task_dep := [], file_dep := [] }

/-- An environment for t3 in which the second action fails with
TaskFailed and every executed action records its index and flags. -/
def env3 : ActionObj → Bool → Bool → Trace → Except PyBaseExc Unit × Trace :=
  fun a cs ce tr =>
    match a with
    | .cmd "a1" => (.ok (), tr ++ [(0, cs, ce)])
    | .cmd "a2" => (.error (.taskFailed "second action failed"), tr ++ [(1, cs, ce)])
    | _ => (.ok (), tr ++ [(2, cs, ce)])

/-- Lookup in a Python dict, modelled as an association list with unique
keys: the value at the first matching key. -/
def dictGet? : List (String × PyObj) → String → Option PyObj
  | [], _ => Option.none
  | (k1, v1) :: rest, k => if k1 = k then some v1 else dictGet? rest k

/-- Python `k in d`. -/
def dictContains (d : List (String × PyObj)) (k : String) : Bool :=
  (dictGet? d k).isSome

/-- Python `d.get(k, default)`. -/
def dictGet (d : List (String × PyObj)) (k : String) (default : PyObj) : PyObj :=
  (dictGet? d k).getD default

/-- Python `d[k]`: the value, or KeyError when the key is absent. -/
def dictGetItem (d : List (String × PyObj)) (k : String) :
    Except PyBaseExc PyObj :=
  match dictGet? d k with
  | some v => .ok v
  | Option.none => .error (.keyError k)

/-- Python `d[k] = v`: replace the value at an existing key in place,
otherwise append the new entry. -/
def dictSet : List (String × PyObj) → String → PyObj → List (String × PyObj)
  | [], k, v => [(k, v)]
  | (k1, v1) :: rest, k, v =>
    if k1 = k then (k1, v) :: rest else (k1, v1) :: dictSet rest k v

/-- Python `del d[k]` on a dict with unique keys: drop the entry. -/
def dictDel (d : List (String × PyObj)) (k : String) : List (String × PyObj) :=
  d.filter (fun kv => kv.1 != k)

/-- The recognised task dict keys, line 340 of the source. -/
def TASK_ATTRS : List String := ["name", "actions", "dependencies", "targets", "setup"]

/-- The key whitelist loop at lines 356-359 of the source: the first
key outside TASK_ATTRS, when any. -/
def findBadKey : List (String × PyObj) → Option String
  | [] => Option.none
  | (k1, _) :: rest => if TASK_ATTRS.contains k1 then findBadKey rest else some k1

/-- The deprecated alias rewrite of dict_to_task, lines 344-347 of the
source, as a function of the incoming dict: when `actions` is absent
and `action` present, its value is stored under `actions` and the old
key deleted; otherwise the dict is unchanged. -/
def aliasFix (d : List (String × PyObj)) : List (String × PyObj) :=
  if dictContains d "actions" then d
  else if dictContains d "action" then
    dictDel (dictSet d "actions" (dictGet d "action" .none)) "action"
  else d

/-- The tail of dict_to_task once an `actions` key is available, lines
356-366 of the source: reject the first key outside TASK_ATTRS (the
message formatting reads `d[\x27name\x27]`, so a missing name raises
KeyError instead), then call the Task constructor with `.get` defaults
for the absent optional keys. -/
def processValid (d : List (String × PyObj)) : Except PyBaseExc TaskObj :=
  match findBadKey d with
  | some k =>
    (match dictGetItem d "name" with
     | .error e => .error e
     | .ok nm => .error (.invalidTask ("Task " ++ pyStr nm
         ++ " contain invalid field: " ++ k)))
  | Option.none =>
    Task.init_ (dictGet d "name" .none) (dictGet d "actions" .none)
      (dictGet d "dependencies" (.list [])) (dictGet d "targets" (.list []))
      (dictGet d "setup" .none) false

/-- dict_to_task, lines 329-366 of the source.  The caller passes the
task dict by reference, so the result is the pair of the outcome and
the dict as the caller observes it afterwards.  When `actions` is
absent but the deprecated `action` key is present, the dict is mutated
in place (value moved under `actions`, old key deleted) before the
deprecation warning is printed; the warning text reads `d[\x27name\x27]`
and therefore raises KeyError on a dict without a name, after the
mutation already happened.  When neither key is present, the InvalidTask
message likewise reads `d[\x27name\x27]` first. -/
def dict_to_task (task_dict : List (String × PyObj)) :
    Except PyBaseExc TaskObj × List (String × PyObj) :=
  if dictContains task_dict "actions" then
    (processValid task_dict, task_dict)
  else if dictContains task_dict "action" then
    let d2 := dictDel (dictSet task_dict "actions"
      (dictGet task_dict "action" .none)) "action"
    match dictGetItem d2 "name" with
    | .error e => (.error e, d2)
    | .ok _ => (processValid d2, d2)
  else
    match dictGetItem task_dict "name" with
    | .error e => (.error e, task_dict)
    | .ok nm =>
      (.error (.invalidTask ("Task " ++ pyStr nm
        ++ " must contain \x27actions\x27 field. " ++ pyStr (.dict task_dict))),
       task_dict)

theorem classify_ok (deps : List PyObj) :
    ∀ (name : PyObj) (folder task file : List String) (ronce : Bool),
    deps.all entryOk = true →
    classifyGo name folder task file ronce deps =
      .ok (folder ++ deps.filterMap folderOf, task ++ deps.filterMap taskOf,
           file ++ deps.filterMap fileOf, ronce || deps.any isTrueLit) := by
  induction deps with
  | nil => intro name folder task file ronce _; simp [classifyGo]
  | cons d rest ih =>
    intro name folder task file ronce h
    rw [List.all_cons, Bool.and_eq_true] at h
    obtain ⟨hd, hrest⟩ := h
    cases d with
    | bool b =>
      cases b
      · simp [entryOk] at hd
      · rw [show classifyGo name folder task file ronce (PyObj.bool true :: rest) =
            classifyGo name folder task file true rest from rfl]
        rw [ih name folder task file true hrest]
        simp [folderOf, taskOf, fileOf, isTrueLit, List.filterMap_cons]
    | str s =>
      by_cases he : pyEndsWith s "/"
      · rw [show classifyGo name folder task file ronce (PyObj.str s :: rest) =
            classifyGo name (folder ++ [s]) task file ronce rest by simp [classifyGo, he]]
        rw [ih name (folder ++ [s]) task file ronce hrest]
        simp [folderOf, taskOf, fileOf, isTrueLit, List.filterMap_cons, he,
          List.append_assoc]
      · by_cases hs : pyStartsWith s ":"
        · rw [show classifyGo name folder task file ronce (PyObj.str s :: rest) =
              classifyGo name folder (task ++ [pyDropFirst s]) file ronce rest by
                simp [classifyGo, he, hs]]
          rw [ih name folder (task ++ [pyDropFirst s]) file ronce hrest]
          simp [folderOf, taskOf, fileOf, isTrueLit, List.filterMap_cons, he, hs,
            List.append_assoc]
        · rw [show classifyGo name folder task file ronce (PyObj.str s :: rest) =
              classifyGo name folder task (file ++ [s]) ronce rest by
                simp [classifyGo, he, hs]]
          rw [ih name folder task (file ++ [s]) ronce hrest]
          simp [folderOf, taskOf, fileOf, isTrueLit, List.filterMap_cons, he, hs,
            List.append_assoc]
    | none => simp [entryOk] at hd
    | int n => simp [entryOk] at hd
    | tuple l => simp [entryOk] at hd
    | list l => simp [entryOk] at hd
    | dict l => simp [entryOk] at hd
    | callable n => simp [entryOk] at hd
    | actionObj a => simp [entryOk] at hd

theorem classify_hasFalse (deps : List PyObj) :
    ∀ (name : PyObj) (folder task file : List String) (ronce : Bool),
    deps.all isBoolOrStr = true → deps.any isFalseLit = true →
    ∃ m, classifyGo name folder task file ronce deps = .error (.invalidTask m) := by
  induction deps with
  | nil => intro name folder task file ronce _ h2; simp at h2
  | cons d rest ih =>
    intro name folder task file ronce h1 h2
    rw [List.all_cons, Bool.and_eq_true] at h1
    obtain ⟨hd, hrest⟩ := h1
    cases d with
    | bool b =>
      cases b
      · exact ⟨_, rfl⟩
      · rw [List.any_cons] at h2
        simp only [isFalseLit, Bool.false_or] at h2
        obtain ⟨m, hm⟩ := ih name folder task file true hrest h2
        exact ⟨m, by simpa [classifyGo] using hm⟩
    | str s =>
      rw [List.any_cons] at h2
      simp only [isFalseLit, Bool.false_or] at h2
      by_cases he : pyEndsWith s "/"
      · obtain ⟨m, hm⟩ := ih name (folder ++ [s]) task file ronce hrest h2
        exact ⟨m, by simpa [classifyGo, he] using hm⟩
      · by_cases hs : pyStartsWith s ":"
        · obtain ⟨m, hm⟩ := ih name folder (task ++ [pyDropFirst s]) file ronce hrest h2
          exact ⟨m, by simpa [classifyGo, he, hs] using hm⟩
        · obtain ⟨m, hm⟩ := ih name folder task (file ++ [s]) ronce hrest h2
          exact ⟨m, by simpa [classifyGo, he, hs] using hm⟩
    | none => simp [isBoolOrStr] at hd
    | int n => simp [isBoolOrStr] at hd
    | tuple l => simp [isBoolOrStr] at hd
    | list l => simp [isBoolOrStr] at hd
    | dict l => simp [isBoolOrStr] at hd
    | callable n => simp [isBoolOrStr] at hd
    | actionObj a => simp [isBoolOrStr] at hd

theorem all_entryOk (deps : List PyObj) (h1 : deps.all isBoolOrStr = true)
    (h2 : deps.any isFalseLit = false) : deps.all entryOk = true := by
  rw [List.all_eq_true] at h1 ⊢
  intro x hx
  have hb := h1 x hx
  have hf : isFalseLit x = false := by
    by_contra hc
    rw [Bool.not_eq_false] at hc
    have : deps.any isFalseLit = true := List.any_eq_true.mpr ⟨x, hx, hc⟩
    simp [this] at h2
  cases x with
  | bool b => cases b <;> simp_all [isFalseLit, entryOk]
  | str s => rfl
  | none => simp [isBoolOrStr] at hb
  | int n => simp [isBoolOrStr] at hb
  | tuple l => simp [isBoolOrStr] at hb
  | list l => simp [isBoolOrStr] at hb
  | dict l => simp [isBoolOrStr] at hb
  | callable n => simp [isBoolOrStr] at hb
  | actionObj a => simp [isBoolOrStr] at hb

theorem fileOf_nonempty (deps : List PyObj) (h : deps.any isFileStr = true) :
    (deps.filterMap fileOf).isEmpty = false := by
  induction deps with
  | nil => simp at h
  | cons d rest ih =>
    rw [List.any_cons, Bool.or_eq_true] at h
    rcases h with h | h
    · cases d with
      | str s =>
        simp only [isFileStr, Bool.and_eq_true] at h
        simp [List.filterMap_cons, fileOf, h.1, h.2]
      | bool b => simp [isFileStr] at h
      | none => simp [isFileStr] at h
      | int n => simp [isFileStr] at h
      | tuple l => simp [isFileStr] at h
      | list l => simp [isFileStr] at h
      | dict l => simp [isFileStr] at h
      | callable n => simp [isFileStr] at h
      | actionObj a => simp [isFileStr] at h
    · have htail := ih h
      rw [List.filterMap_cons]
      cases hf : fileOf d
      · simpa using htail
      · simp

theorem runActs_instr (rs : List (Except PyBaseExc Unit)) :
    ∀ (n : Nat) (cs ce : Bool) (tr : Trace),
    runActions (instrActs rs n) cs ce tr =
      (firstExc rs, tr ++ traceOf n (execCount rs) cs ce) := by
  induction rs with
  | nil => intro n cs ce tr; simp [instrActs, runActions, firstExc, execCount, traceOf]
  | cons r rest ih =>
    intro n cs ce tr
    cases r with
    | ok u =>
      cases u
      rw [show runActions (instrActs (Except.ok () :: rest) n) cs ce tr =
            runActions (instrActs rest (n + 1)) cs ce (tr ++ [(n, cs, ce)]) from rfl,
          ih (n + 1) cs ce (tr ++ [(n, cs, ce)]),
          show firstExc (Except.ok () :: rest) = firstExc rest from rfl,
          show execCount (Except.ok () :: rest) = execCount rest + 1 from rfl,
          show traceOf n (execCount rest + 1) cs ce =
            (n, cs, ce) :: traceOf (n + 1) (execCount rest) cs ce from rfl]
      simp [List.append_assoc]
    | error e => rfl

theorem dictGet?_set_self (d : List (String × PyObj)) (k : String) (v : PyObj) :
    dictGet? (dictSet d k v) k = some v := by
  induction d with
  | nil => simp [dictSet, dictGet?]
  | cons kv rest ih =>
    obtain ⟨k1, v1⟩ := kv
    by_cases h : k1 = k
    · simp [dictSet, dictGet?, h]
    · simp [dictSet, dictGet?, h, ih]

theorem dictGet?_set_ne (d : List (String × PyObj)) (k k2 : String) (v : PyObj)
    (h : k2 ≠ k) : dictGet? (dictSet d k v) k2 = dictGet? d k2 := by
  induction d with
  | nil => simp [dictSet, dictGet?, Ne.symm h]
  | cons kv rest ih =>
    obtain ⟨k1, v1⟩ := kv
    by_cases h1 : k1 = k
    · simp [dictSet, dictGet?, h1, Ne.symm h]
    · by_cases h2 : k1 = k2
      · simp [dictSet, dictGet?, h1, h2, h]
      · simp [dictSet, dictGet?, h1, h2, ih]

theorem dictGet?_del_self (d : List (String × PyObj)) (k : String) :
    dictGet? (dictDel d k) k = Option.none := by
  induction d with
  | nil => simp [dictDel, dictGet?]
  | cons kv rest ih =>
    obtain ⟨k1, v1⟩ := kv
    by_cases h : k1 = k
    · simpa [dictDel, List.filter_cons, h] using ih
    · simpa [dictDel, dictGet?, List.filter_cons, h] using ih

theorem dictGet?_del_ne (d : List (String × PyObj)) (k k2 : String)
    (h : k2 ≠ k) : dictGet? (dictDel d k) k2 = dictGet? d k2 := by
  induction d with
  | nil => simp [dictDel, dictGet?]
  | cons kv rest ih =>
    obtain ⟨k1, v1⟩ := kv
    by_cases h1 : k1 = k
    · simpa [dictDel, dictGet?, List.filter_cons, h1, Ne.symm h] using ih
    · by_cases h2 : k1 = k2
      · simp [dictDel, dictGet?, List.filter_cons, h1, h2, h]
      · simpa [dictDel, dictGet?, List.filter_cons, h1, h2] using ih

/-- Claim C1: for every command whose shell subprocess terminates,
CmdAction.execute returns normally if and only if the exit code is 0;
an exit code strictly greater than 125 raises TaskError and any other
non zero exit code raises TaskFailed; in both failing cases the message
is exactly the source format string instantiated with the original
command text and the observed exit code, so it includes both. -/
theorem C1_cmd_exit_code_mapping (action : String) (rc : Int) (o e : String)
    (cs ce : Bool) :
    (CmdAction.executeModel action rc o e cs ce).1 =
      (if 125 < rc then
        .error (.taskError ("Command error: \x27" ++ action ++ "\x27 returned "
          ++ toString rc) Option.none)
       else if rc = 0 then .ok ()
       else
        .error (.taskFailed ("Command failed: \x27" ++ action ++ "\x27 returned "
          ++ toString rc)))
    ∧ (((CmdAction.executeModel action rc o e cs ce).1 = .ok ()) ↔ rc = 0) := by
  have key : (CmdAction.executeModel action rc o e cs ce).1 =
      (if 125 < rc then
        .error (.taskError ("Command error: \x27" ++ action ++ "\x27 returned "
          ++ toString rc) Option.none)
       else if rc = 0 then .ok ()
       else
        .error (.taskFailed ("Command failed: \x27" ++ action ++ "\x27 returned "
          ++ toString rc))) := by
    simp only [CmdAction.executeModel, bne_iff_ne, ne_eq, gt_iff_lt, ite_not]
  refine ⟨key, ?_⟩
  rw [key]
  split_ifs with h1 h2
  · simp only [iff_false, reduceCtorEq, false_iff]
    omega
  · simp [h2]
  · simp [h2]

/-- Claim C2 counterexample: the original claim lists the case of no
explicit return (a callable returning None) among the successes, but a
callable that returns None makes PythonAction.execute raise TaskFailed,
because None is falsy under the `if not result:` test of the source. -/
theorem C2_counterexample :
    (PythonAction.execute (.callable "f")
      ⟨.ok .none, "", ""⟩ false false ⟨.real, .real, "", []⟩).1 =
    .error (.taskFailed
      "Python Task failed: \x27<function f>\x27 returned None") := rfl

/-- Claim C2 as amended: for every stored callable whose invocation
returns normally, PythonAction.execute raises TaskFailed, with a string
representation of the callable and of the returned value, exactly when
the returned value is falsy (which includes None, and hence the case of
no explicit return), and succeeds for every truthy return value. -/
theorem C2_python_return_value (pc v : PyObj) (o e : String) (cs ce : Bool)
    (st : SysState) :
    (PythonAction.execute pc ⟨.ok v, o, e⟩ cs ce st).1 =
      (if truthy v then .ok ()
       else .error (.taskFailed ("Python Task failed: \x27" ++ pyStr pc
              ++ "\x27 returned " ++ pyStr v))) := by
  cases htv : truthy v <;> simp [PythonAction.execute, htv]

/-- Claim C3: a plain exception raised by the stored callable is caught
and re-raised as TaskError carrying the original message and, in the
originalException attribute, the formatted traceback (which names the
original exception class, message and stack frames); the termination
signals SystemExit and KeyboardInterrupt propagate out of execute
unchanged, never converted. -/
theorem C3_python_exception_wrapping (pc : PyObj) (cls msg : String)
    (tb : List String) (o e : String) (cs ce : Bool) (st : SysState) :
    (PythonAction.execute pc ⟨.error (.exn cls msg tb), o, e⟩ cs ce st).1 =
      .error (.taskError msg (some (format_exception cls msg tb)))
    ∧ (PythonAction.execute pc ⟨.error .systemExit, o, e⟩ cs ce st).1 =
      .error .systemExit
    ∧ (PythonAction.execute pc ⟨.error .keyboardInterrupt, o, e⟩ cs ce st).1 =
      .error .keyboardInterrupt := by
  refine ⟨?_, ?_, ?_⟩ <;> simp [PythonAction.execute]

/-- Claim C4 counterexample: the claim asserts that constructing a Task
with dependencies ["a.txt", "sub/", ":build", True] yields a task with
the stated classification, but Task construction on exactly that list
raises InvalidTask, because the list sets run_once and leaves a non
empty file_dep, which the constructor rejects. -/
theorem C4_counterexample :
    Task.init_ (.str "t") .none
      (.list [.str "a.txt", .str "sub/", .str ":build", .bool true])
      (.list []) .none false =
    .error (.invalidTask
      ("t. task cant have file and dependencies and True at the same time."
        ++ " (just remove True)")) := rfl

/-- Claim C4 as amended: construction classifies each valid dependency
entry exactly once, in source order: a string ending in the path
separator goes to folder_dep, then a string beginning with the colon
marker goes to task_dep with the marker stripped, any other string goes
to file_dep, and the literal True sets run_once.  On the example list
["a.txt", "sub/", ":build", True] the classification yields exactly
folder_dep = ["sub/"], task_dep = ["build"], file_dep = ["a.txt"] and
run_once = True, but construction then raises InvalidTask because
run_once excludes a non empty file_dep; whenever that conflict is
absent the constructed Task exposes exactly the classified buckets. -/
theorem C4_dependency_classification (name : PyObj) (deps : List PyObj)
    (h : deps.all entryOk = true) :
    classifyGo name [] [] [] false deps =
      .ok (deps.filterMap folderOf, deps.filterMap taskOf,
           deps.filterMap fileOf, deps.any isTrueLit)
    ∧ ((deps.any isTrueLit && !(deps.filterMap fileOf).isEmpty) = true →
        Task.init_ name .none (.list deps) (.list []) .none false =
          .error (.invalidTask (pyStr name
            ++ ". task cant have file and dependencies and True at the same time."
            ++ " (just remove True)")))
    ∧ ((deps.any isTrueLit && !(deps.filterMap fileOf).isEmpty) = false →
        ∃ t : TaskObj,
          Task.init_ name .none (.list deps) (.list []) .none false = .ok t
          ∧ t.folder_dep = deps.filterMap folderOf
          ∧ t.task_dep = deps.filterMap taskOf
          ∧ t.file_dep = deps.filterMap fileOf
          ∧ t.run_once = deps.any isTrueLit) := by
  have hc := classify_ok deps name [] [] [] false h
  simp only [List.nil_append, Bool.false_or] at hc
  refine ⟨hc, ?_, ?_⟩
  · intro hcond
    simp [Task.init_, checkSeq, buildActions, hc, hcond]
  · intro hcond
    refine ⟨{ name := name, actions := [], dependencies := .list deps,
              targets := [], setup := .none, run_once := deps.any isTrueLit,
              is_subtask := false, folder_dep := deps.filterMap folderOf,
              task_dep := deps.filterMap taskOf,
              file_dep := deps.filterMap fileOf },
            ?_, rfl, rfl, rfl, rfl⟩
    simp [Task.init_, checkSeq, buildActions, hc, hcond]

/-- Claim C4 witness: on the example dependency list every entry is
valid, the classification yields the buckets named by the claim, and
construction nevertheless raises InvalidTask. -/
theorem C4_dependency_classification_witness :
    ([PyObj.str "a.txt", PyObj.str "sub/", PyObj.str ":build",
        PyObj.bool true].all entryOk = true)
    ∧ classifyGo (.str "t") [] [] [] false
        [.str "a.txt", .str "sub/", .str ":build", .bool true] =
      .ok (["sub/"], ["build"], ["a.txt"], true)
    ∧ Task.init_ (.str "t") .none
        (.list [.str "a.txt", .str "sub/", .str ":build", .bool true])
        (.list []) .none false =
      .error (.invalidTask
        ("t. task cant have file and dependencies and True at the same time."
          ++ " (just remove True)")) := by
  have h := C4_dependency_classification (.str "t")
    [.str "a.txt", .str "sub/", .str ":build", .bool true] (by decide)
  exact ⟨by decide, by rw [h.1]; rfl, h.2.1 (by decide)⟩

/-- Claim C5: Task.execute runs the actions in declared order, passing
the same two capture flags to every action, and the first action that
raises aborts the remaining actions with that exception propagating
unchanged.  The first conjunct characterises the loop for an arbitrary
list of action outcomes: the executed actions are exactly the first
execCount ones, each receiving the given flags, and the result is the
first exception.  The second conjunct is the concrete instance of the
claim: a task with three actions where the second raises TaskFailed
never executes the third and propagates that same TaskFailed. -/
theorem C5_task_execute_sequence (rs : List (Except PyBaseExc Unit))
    (cs ce : Bool) :
    runActions (instrActs rs 0) cs ce ([] : Trace) =
      (firstExc rs, traceOf 0 (execCount rs) cs ce)
    ∧ TaskObj.execute t3 env3 cs ce ([] : Trace) =
      (.error (.taskFailed "second action failed"), [(0, cs, ce), (1, cs, ce)]) := by
  refine ⟨by simpa using runActs_instr rs 0 cs ce [], rfl⟩

/-- Claim C6: a dependency sequence of bools and strings that contains
the literal True together with at least one plain file dependency
string makes Task construction raise InvalidTask: run_once and a non
empty file_dep are mutually exclusive. -/
theorem C6_run_once_excludes_file_dep (name : PyObj) (deps : List PyObj)
    (h1 : deps.all isBoolOrStr = true) (h2 : deps.any isTrueLit = true)
    (h3 : deps.any isFileStr = true) :
    ∃ m, Task.init_ name .none (.list deps) (.list []) .none false =
      .error (.invalidTask m) := by
  cases hf : deps.any isFalseLit with
  | true =>
    obtain ⟨m, hm⟩ := classify_hasFalse deps name [] [] [] false h1 hf
    exact ⟨m, by simp [Task.init_, checkSeq, buildActions, hm]⟩
  | false =>
    have hok := classify_ok deps name [] [] [] false (all_entryOk deps h1 hf)
    have hfile := fileOf_nonempty deps h3
    refine ⟨pyStr name
      ++ ". task cant have file and dependencies and True at the same time."
      ++ " (just remove True)", ?_⟩
    simp [Task.init_, checkSeq, buildActions, hok, h2, hfile]

/-- Claim C6 witness: dependencies ["x.txt", True] make construction
raise InvalidTask. -/
theorem C6_run_once_excludes_file_dep_witness :
    ∃ m, Task.init_ (.str "t") .none (.list [.str "x.txt", .bool true])
      (.list []) .none false = .error (.invalidTask m) :=
  C6_run_once_excludes_file_dep (.str "t") [.str "x.txt", .bool true]
    (by decide) (by decide) (by decide)

/-- Claim C7 counterexample: the claim says a tuple or sequence action
spec is unpacked positionally as PythonAction constructor arguments,
but a Python list, which is a sequence, is not unpacked: create_action
on a list containing a callable raises InvalidTask naming the list
type. -/
theorem C7_counterexample :
    create_action (.list [.callable "f"]) =
      .error (.invalidTask "Invalid task action type. <type \x27list\x27>") := rfl

/-- Claim C7 as amended: create_action returns an already constructed
action object unchanged; builds a CmdAction verbatim from a string;
unpacks an exact tuple positionally as PythonAction constructor
arguments (first element the callable, optional second a positional
args sequence, optional third a keyword args dict, with empty defaults
stored for the absent ones); wraps a bare callable as a PythonAction
with no extra arguments; and for any other input, including a list or
other non tuple sequence, raises InvalidTask reporting the concrete
type received. -/
theorem C7_create_action_dispatch :
    (∀ a : ActionObj, create_action (.actionObj a) = .ok a)
    ∧ (∀ s : String, create_action (.str s) = .ok (.cmd s))
    ∧ (∀ n : String, create_action (.tuple [.callable n]) =
        .ok (.python (.callable n) (.list []) (.dict [])))
    ∧ (∀ (n : String) (args : List PyObj),
        create_action (.tuple [.callable n, .list args]) =
          .ok (.python (.callable n) (.list args) (.dict [])))
    ∧ (∀ (n : String) (args : List PyObj) (kw : List (String × PyObj)),
        create_action (.tuple [.callable n, .list args, .dict kw]) =
          .ok (.python (.callable n) (.list args) (.dict kw)))
    ∧ (∀ n : String, create_action (.callable n) =
        .ok (.python (.callable n) (.list []) (.dict [])))
    ∧ (∀ k : Int, create_action (.int k) =
        .error (.invalidTask ("Invalid task action type. " ++ typeName (.int k))))
    ∧ (∀ l : List PyObj, create_action (.list l) =
        .error (.invalidTask ("Invalid task action type. " ++ typeName (.list l))))
    ∧ create_action PyObj.none =
        .error (.invalidTask ("Invalid task action type. " ++ typeName PyObj.none)) := by
  refine ⟨fun a => rfl, fun s => rfl, fun n => rfl, fun n args => rfl,
    fun n args kw => rfl, fun n => rfl, fun k => rfl, fun l => rfl, rfl⟩

/-- Claim C8 counterexample: the claim says a record containing neither
`actions` nor `action` makes the builder raise InvalidTask, but on the
empty record the source first evaluates the message operand
`task_dict[\x27name\x27]`, which raises KeyError instead. -/
theorem C8_counterexample :
    (dict_to_task []).1 = .error (.keyError "name") := rfl

/-- Claim C8 as amended: for every record that contains a `name` key
(records lacking one raise KeyError from the message formatting
instead), the builder raises InvalidTask when the record contains
neither `actions` nor the deprecated alias `action`; raises InvalidTask
when, after the alias rewrite, some key lies outside the recognised set
name, actions, dependencies, targets, setup; and otherwise delegates to
the Task constructor with defaults dependencies = [], targets = [] and
setup = None for the absent keys. -/
theorem C8_dict_to_task_validation (d : List (String × PyObj))
    (hname : dictContains d "name" = true) :
    (dictContains d "actions" = false → dictContains d "action" = false →
      ∃ m, (dict_to_task d).1 = .error (.invalidTask m))
    ∧ (∀ k, dictContains d "actions" = true ∨ dictContains d "action" = true →
        findBadKey (aliasFix d) = some k →
        ∃ m, (dict_to_task d).1 = .error (.invalidTask m))
    ∧ (dictContains d "actions" = true ∨ dictContains d "action" = true →
        findBadKey (aliasFix d) = Option.none →
        (dict_to_task d).1 =
          Task.init_ (dictGet (aliasFix d) "name" .none)
            (dictGet (aliasFix d) "actions" .none)
            (dictGet (aliasFix d) "dependencies" (.list []))
            (dictGet (aliasFix d) "targets" (.list []))
            (dictGet (aliasFix d) "setup" .none) false) := by
  obtain ⟨nm, hnm⟩ : ∃ nm, dictGet? d "name" = some nm := by
    rw [dictContains, Option.isSome_iff_exists] at hname
    exact hname
  have hn2 : dictGet? (dictDel (dictSet d "actions" (dictGet d "action" .none))
      "action") "name" = some nm := by
    rw [dictGet?_del_ne _ _ _ (by decide), dictGet?_set_ne _ _ _ _ (by decide), hnm]
  refine ⟨?_, ?_, ?_⟩
  · intro hA hB
    refine ⟨"Task " ++ pyStr nm ++ " must contain \x27actions\x27 field. "
      ++ pyStr (.dict d), ?_⟩
    simp [dict_to_task, hA, hB, dictGetItem, hnm]
  · intro k hav hk
    cases hA : dictContains d "actions" with
    | true =>
      have hfix : aliasFix d = d := by simp [aliasFix, hA]
      rw [hfix] at hk
      refine ⟨"Task " ++ pyStr nm ++ " contain invalid field: " ++ k, ?_⟩
      simp [dict_to_task, hA, processValid, hk, dictGetItem, hnm]
    | false =>
      have hB : dictContains d "action" = true := by
        rcases hav with h | h
        · rw [hA] at h; exact absurd h (by simp)
        · exact h
      have hfix : aliasFix d =
          dictDel (dictSet d "actions" (dictGet d "action" .none)) "action" := by
        simp [aliasFix, hA, hB]
      rw [hfix] at hk
      refine ⟨"Task " ++ pyStr nm ++ " contain invalid field: " ++ k, ?_⟩
      simp [dict_to_task, hA, hB, dictGetItem, hn2, processValid, hk]
  · intro hav hk
    cases hA : dictContains d "actions" with
    | true =>
      have hfix : aliasFix d = d := by simp [aliasFix, hA]
      rw [hfix] at hk ⊢
      simp [dict_to_task, hA, processValid, hk]
    | false =>
      have hB : dictContains d "action" = true := by
        rcases hav with h | h
        · rw [hA] at h; exact absurd h (by simp)
        · exact h
      have hfix : aliasFix d =
          dictDel (dictSet d "actions" (dictGet d "action" .none)) "action" := by
        simp [aliasFix, hA, hB]
      rw [hfix] at hk ⊢
      simp [dict_to_task, hA, hB, dictGetItem, hn2, processValid, hk]

/-- Claim C8 witness: a record with only a name and no action keys is
rejected with InvalidTask, a record with an unknown key is rejected
with InvalidTask, and a well formed record delegates to the Task
constructor with defaults. -/
theorem C8_dict_to_task_validation_witness :
    (∃ m, (dict_to_task [("name", .str "t")]).1 = .error (.invalidTask m))
    ∧ (∃ m, (dict_to_task [("name", .str "t"), ("actions", .list []),
        ("foo", .int 1)]).1 = .error (.invalidTask m))
    ∧ (dict_to_task [("name", .str "t"), ("actions", .list [])]).1 =
        Task.init_ (.str "t") (.list []) (.list []) (.list []) .none false := by
  refine ⟨(C8_dict_to_task_validation [("name", .str "t")] (by decide)).1
      (by decide) (by decide),
    (C8_dict_to_task_validation [("name", .str "t"), ("actions", .list []),
        ("foo", .int 1)] (by decide)).2.1 "foo" (Or.inl (by decide)) (by decide),
    ?_⟩
  have h := (C8_dict_to_task_validation [("name", .str "t"),
    ("actions", .list [])] (by decide)).2.2 (Or.inl (by decide)) (by decide)
  rw [h]
  rfl

/-- Claim C9: whenever a capture flag is enabled, PythonAction.execute
restores the corresponding process wide stream binding to its prior
value on every exit path (the call behaviour ranges over normal return,
a plain exception that becomes TaskError, and the propagating
termination signals; the falsy return case that raises TaskFailed only
differs afterwards), and the content the callable wrote to the capture
buffer is flushed to the logging collaborator with the matching channel
tag, appended to the log in stdout then stderr order. -/
theorem C9_stream_restore_and_flush (pc : PyObj) (beh : CallBehavior)
    (cs ce : Bool) (st : SysState) :
    (cs = true → ((PythonAction.execute pc beh cs ce st).2).stdout = st.stdout)
    ∧ (ce = true → ((PythonAction.execute pc beh cs ce st).2).stderr = st.stderr)
    ∧ ((PythonAction.execute pc beh cs ce st).2).log =
        st.log ++ (if cs then [("stdout", beh.outWrites)] else [])
               ++ (if ce then [("stderr", beh.errWrites)] else []) := by
  obtain ⟨outc, ow, ew⟩ := beh
  obtain ⟨so, se, con, lg⟩ := st
  refine ⟨?_, ?_, ?_⟩ <;>
  · rcases outc with pe | v
    · rcases pe with _ | _ | ⟨cls, msg, tb⟩ <;>
        cases cs <;> cases ce <;> cases so <;> cases se <;>
        simp [PythonAction.execute, SysState.writeStdout, SysState.writeStderr,
          StreamObj.getvalue]
    · cases htv : truthy v <;>
        cases cs <;> cases ce <;> cases so <;> cases se <;>
        simp [PythonAction.execute, SysState.writeStdout, SysState.writeStderr,
          StreamObj.getvalue, htv]

/-- Claim C9 witness: with both flags enabled, a buffer bound to stdout
beforehand and the real stream on stderr are both restored, and the two
captured texts are appended to the log with their channel tags. -/
theorem C9_stream_restore_and_flush_witness :
    ((PythonAction.execute (.callable "f") ⟨.ok (.bool true), "out", "err"⟩
      true true ⟨.strBuf "pre", .real, "", [("stdout", "old")]⟩).2).stdout =
        .strBuf "pre"
    ∧ ((PythonAction.execute (.callable "f") ⟨.ok (.bool true), "out", "err"⟩
      true true ⟨.strBuf "pre", .real, "", [("stdout", "old")]⟩).2).stderr = .real
    ∧ ((PythonAction.execute (.callable "f") ⟨.ok (.bool true), "out", "err"⟩
      true true ⟨.strBuf "pre", .real, "", [("stdout", "old")]⟩).2).log =
        [("stdout", "old"), ("stdout", "out"), ("stderr", "err")] := by
  have h := C9_stream_restore_and_flush (.callable "f")
    ⟨.ok (.bool true), "out", "err"⟩ true true
    ⟨.strBuf "pre", .real, "", [("stdout", "old")]⟩
  exact ⟨h.1 rfl, h.2.1 rfl, by rw [h.2.2]; rfl⟩

/-- Claim C10: when the input record uses the deprecated `action` key
and `actions` is absent, dict_to_task mutates the callers mapping in
place before building the Task: afterwards the `action` key is gone,
its value is stored under `actions`, and the record differs from the
one passed in. -/
theorem C10_deprecated_action_mutation (d : List (String × PyObj))
    (hA : dictContains d "actions" = false) (hB : dictContains d "action" = true) :
    (dict_to_task d).2 =
      dictDel (dictSet d "actions" (dictGet d "action" PyObj.none)) "action"
    ∧ dictGet? ((dict_to_task d).2) "actions" = dictGet? d "action"
    ∧ dictGet? ((dict_to_task d).2) "action" = Option.none
    ∧ (dict_to_task d).2 ≠ d := by
  obtain ⟨v, hv⟩ : ∃ v, dictGet? d "action" = some v := by
    rw [dictContains, Option.isSome_iff_exists] at hB
    exact hB
  have hd2 : (dict_to_task d).2 =
      dictDel (dictSet d "actions" (dictGet d "action" PyObj.none)) "action" := by
    rcases hni : dictGetItem (dictDel (dictSet d "actions"
      (dictGet d "action" PyObj.none)) "action") "name" with e | nmv <;>
      simp [dict_to_task, hA, hB, hni]
  have h2 : dictGet? ((dict_to_task d).2) "actions" = some v := by
    rw [hd2, dictGet?_del_ne _ _ _ (by decide), dictGet?_set_self]
    simp [dictGet, hv]
  refine ⟨hd2, ?_, ?_, ?_⟩
  · rw [h2, hv]
  · rw [hd2, dictGet?_del_self]
  · intro heq
    rw [heq] at h2
    rw [dictContains, h2] at hA
    simp at hA

/-- Claim C10 witness: on a concrete record with a name and a
deprecated action key, the caller observes the rewritten record, which
differs from the record passed in. -/
theorem C10_deprecated_action_mutation_witness :
    (dict_to_task [("name", .str "t"), ("action", .str "echo")]).2 =
      [("name", .str "t"), ("actions", .str "echo")]
    ∧ (dict_to_task [("name", .str "t"), ("action", .str "echo")]).2 ≠
      [("name", .str "t"), ("action", .str "echo")] := by
  have h := C10_deprecated_action_mutation
    [("name", .str "t"), ("action", .str "echo")] (by decide) (by decide)
  exact ⟨by rw [h.1]; rfl, h.2.2.2⟩
